import Mathlib

/-!
Verification development for the canvasparticles-js particle engine
(`src/index.ts`, final revision).  The numeric model uses `ℚ` for
JavaScript numbers; `JsNum` additionally models `NaN` and the two
infinities where the source can actually produce them (options
resolution and particle-count sizing).  Calls into `Math.sin`,
`Math.cos`, `Math.hypot` and `Math.pow` are taken as oracle inputs of
the per-frame step, universally quantified in the theorems, so every
actual value of those library functions is covered.
-/

namespace CanvasParticles

/-- JavaScript `ToInt32`-style truncation of a rational toward zero
(`Math.trunc` behaviour used by the `%` remainder and `~~`). -/
def jsTrunc (q : ℚ) : ℤ :=
  if 0 ≤ q then ⌊q⌋ else ⌈q⌉

/-- JavaScript `%` remainder on numbers: `x % w = x - w * trunc(x / w)`,
keeping the sign of the dividend. -/
def jsMod (x w : ℚ) : ℚ :=
  x - w * (jsTrunc (x / w) : ℚ)

/-- The wrap idiom of `#updateParticles`:
`p.posX %= width; if (p.posX < 0) p.posX += width`. -/
def wrapCoord (v w : ℚ) : ℚ :=
  let r := jsMod v w
  if r < 0 then r + w else r

theorem wrapCoord_nonneg_lt (v w : ℚ) (hw : 0 < w) :
    0 ≤ wrapCoord v w ∧ wrapCoord v w < w := by
  have hw0 : w ≠ 0 := ne_of_gt hw
  unfold wrapCoord jsMod jsTrunc
  have hv : v = w * (v / w) := by field_simp
  by_cases h : 0 ≤ v / w
  · rw [if_pos h]
    have h1 : ((⌊v / w⌋ : ℚ)) ≤ v / w := Int.floor_le _
    have h2 : v / w < (⌊v / w⌋ : ℚ) + 1 := Int.lt_floor_add_one _
    have hr0 : 0 ≤ v - w * (⌊v / w⌋ : ℚ) := by nlinarith
    have hr1 : v - w * (⌊v / w⌋ : ℚ) < w := by nlinarith
    rw [if_neg (by simpa using not_lt.mpr hr0)]
    exact ⟨hr0, hr1⟩
  · rw [if_neg h]
    have h1 : v / w ≤ ((⌈v / w⌉ : ℚ)) := Int.le_ceil _
    have h2 : ((⌈v / w⌉ : ℚ)) < v / w + 1 := Int.ceil_lt_add_one _
    have hr0 : v - w * (⌈v / w⌉ : ℚ) ≤ 0 := by nlinarith
    have hr1 : -w < v - w * (⌈v / w⌉ : ℚ) := by nlinarith
    by_cases hneg : v - w * (⌈v / w⌉ : ℚ) < 0
    · rw [if_pos hneg]
      constructor <;> linarith
    · rw [if_neg hneg]
      constructor <;> linarith

/-- JavaScript number with the non-finite values the engine can produce. -/
inductive JsNum where
  | nan : JsNum
  | posInf : JsNum
  | negInf : JsNum
  | num : ℚ → JsNum
deriving DecidableEq, Repr

def JsNum.isNaNb : JsNum → Bool
  | .nan => true
  | _ => false

def JsNum.isFiniteb : JsNum → Bool
  | .num _ => true
  | _ => false

/-- `Math.max` (NaN-propagating). -/
def jsMax : JsNum → JsNum → JsNum
  | .nan, _ => .nan
  | _, .nan => .nan
  | .posInf, _ => .posInf
  | _, .posInf => .posInf
  | .negInf, b => b
  | a, .negInf => a
  | .num a, .num b => .num (max a b)

/-- `Math.min` (NaN-propagating). -/
def jsMin : JsNum → JsNum → JsNum
  | .nan, _ => .nan
  | _, .nan => .nan
  | .negInf, _ => .negInf
  | _, .negInf => .negInf
  | .posInf, b => b
  | a, .posInf => a
  | .num a, .num b => .num (min a b)

/-- JavaScript multiplication on the extended numbers. -/
def jsMul : JsNum → JsNum → JsNum
  | .nan, _ => .nan
  | _, .nan => .nan
  | .num a, .num b => .num (a * b)
  | .posInf, .posInf => .posInf
  | .posInf, .negInf => .negInf
  | .negInf, .posInf => .negInf
  | .negInf, .negInf => .posInf
  | .posInf, .num b => if b = 0 then .nan else if 0 < b then .posInf else .negInf
  | .num a, .posInf => if a = 0 then .nan else if 0 < a then .posInf else .negInf
  | .negInf, .num b => if b = 0 then .nan else if 0 < b then .negInf else .posInf
  | .num a, .negInf => if a = 0 then .nan else if 0 < a then .negInf else .posInf

/-- JavaScript division on the extended numbers (`-0` not modelled). -/
def jsDiv : JsNum → JsNum → JsNum
  | .nan, _ => .nan
  | _, .nan => .nan
  | .num a, .num b =>
      if b = 0 then (if a = 0 then .nan else if 0 < a then .posInf else .negInf)
      else .num (a / b)
  | .posInf, .num b => if 0 ≤ b then .posInf else .negInf
  | .negInf, .num b => if 0 ≤ b then .negInf else .posInf
  | .num _, .posInf => .num 0
  | .num _, .negInf => .num 0
  | _, _ => .nan

/-- `Math.round`: for finite x this is `⌊x + 1/2⌋` (ties toward `+∞`),
and infinities round to themselves. -/
def jsRound : JsNum → JsNum
  | .num q => .num ((⌊q + 1/2⌋ : ℤ) : ℚ)
  | x => x

/-- JavaScript `ToInt32` (the `~~v` and `v | 0` idioms): NaN and the
infinities map to 0, finite values truncate toward zero and wrap into
the signed 32-bit range. -/
def toInt32 : JsNum → ℤ
  | .num q =>
      let m : ℤ := (jsTrunc q) % 4294967296
      if m < 2147483648 then m else m - 4294967296
  | _ => 0

/-- Bool-valued `a <= b` with JavaScript NaN semantics. -/
def jsLeb : JsNum → JsNum → Bool
  | .nan, _ => false
  | _, .nan => false
  | .negInf, _ => true
  | _, .posInf => true
  | .posInf, _ => false
  | _, .negInf => false
  | .num a, .num b => decide (a ≤ b)

theorem toInt32_of_mem_int32 (q : ℚ) (h0 : 0 ≤ q) (h1 : q < 2147483648) :
    toInt32 (.num q) = ⌊q⌋ := by
  have hf0 : 0 ≤ ⌊q⌋ := Int.floor_nonneg.mpr h0
  have hf1 : ⌊q⌋ < 2147483648 := by
    rw [Int.floor_lt]
    exact_mod_cast h1
  simp only [toInt32, jsTrunc, if_pos h0]
  rw [Int.emod_eq_of_lt hf0 (by omega), if_pos hf1]

/-! ## Deterministic pseudo-random source (`Mulberry32`)

`function Mulberry32(seed)` keeps a 32-bit state; `next()` mixes it and
returns `((t ^ (t >>> 14)) >>> 0) / 4294967296`.  All JavaScript 32-bit
bit operations are modelled on the unsigned (mod `2^32`) representation,
which is bit-identical to the engine's signed view for `^`, `|`, `>>>`
and `Math.imul`. -/

def UINT32 : ℕ := 4294967296

/-- `seed >>> 0` at generator creation. -/
def mulberry32Seed (seed : ℕ) : ℕ := seed % UINT32

/-- One `next()` call: returns the new state and the produced float. -/
def mulberry32Next (state : ℕ) : ℕ × ℚ :=
  let t1 := (state + 0x6d2b79f5) % UINT32
  let t2 := ((t1 ^^^ (t1 >>> 15)) * (t1 ||| 1)) % UINT32
  let t3 := t2 ^^^ ((t2 + ((t2 ^^^ (t2 >>> 7)) * (t2 ||| 61)) % UINT32) % UINT32)
  let r := (t3 ^^^ (t3 >>> 14)) % UINT32
  (t1, (r : ℚ) / (UINT32 : ℚ))

/-! ## Particle data model -/

structure GridCell where
  x : ℕ
  y : ℕ
deriving DecidableEq, Repr

structure Bounds where
  top : ℚ
  right : ℚ
  bottom : ℚ
  left : ℚ
deriving DecidableEq, Repr

structure Particle where
  posX : ℚ
  posY : ℚ
  x : ℚ
  y : ℚ
  velX : ℚ
  velY : ℚ
  offX : ℚ
  offY : ℚ
  dir : ℚ
  speed : ℚ
  size : ℚ
  gridPos : GridCell
  isVisible : Bool
  isManual : Bool
  bounds : Bounds
deriving DecidableEq, Repr

/-- `#updateParticleBounds`: the particle is considered visible within
these bounds (canvas size inflated by the particle radius). -/
def particleBounds (canvasW canvasH size : ℚ) : Bounds :=
  { top := -size, right := canvasW + size, bottom := canvasH + size, left := -size }

/-- The particle record built by `createParticle` before it is pushed. -/
def mkParticle (canvasW canvasH posX posY dir speed size : ℚ) (isManual : Bool) : Particle :=
  { posX := posX, posY := posY, x := posX, y := posY
    velX := 0, velY := 0, offX := 0, offY := 0
    dir := dir, speed := speed, size := size
    gridPos := { x := 1, y := 1 }, isVisible := false, isManual := isManual
    bounds := particleBounds canvasW canvasH size }

/-- Refresh a retained particle's bounds (`#updateParticleBounds`). -/
def setBounds (canvasW canvasH : ℚ) (p : Particle) : Particle :=
  { p with bounds := particleBounds canvasW canvasH p.size }

/-- Particle store state: the particle array together with the
`hasManualParticles` flag. -/
structure Store where
  particles : List Particle
  hasManualParticles : Bool
deriving DecidableEq, Repr

def emptyStore : Store := { particles := [], hasManualParticles := false }

/-- `createParticle(posX, posY, dir, speed, size, isManual = true)`:
appends one particle and unconditionally sets `hasManualParticles`. -/
def createParticle (canvasW canvasH : ℚ) (posX posY dir speed size : ℚ)
    (isManual : Bool) (s : Store) : Store :=
  { particles := s.particles ++ [mkParticle canvasW canvasH posX posY dir speed size isManual]
    hasManualParticles := true }

/-- The five pseudo-random attribute draws of one `#createParticle`
call.  In the source `posX = prng() * width`, `posY = prng() * height`,
`dir = prng() * 2π`, `speed = (0.5 + prng() * 0.5) * relSpeed` and
`size = (0.5 + prng()^5 * 2) * relSize`; the stream of drawn attribute
tuples is abstracted as an arbitrary function, so every realizable prng
sequence is covered. -/
structure AutoAttrs where
  posX : ℚ
  posY : ℚ
  dir : ℚ
  speed : ℚ
  size : ℚ
deriving DecidableEq, Repr

/-- `#createParticle`: delegates to `createParticle` with
`isManual = false`. -/
def createParticleAuto (canvasW canvasH : ℚ) (a : AutoAttrs) (s : Store) : Store :=
  createParticle canvasW canvasH a.posX a.posY a.dir a.speed a.size false s

/-- The particle record an auto-generation call appends. -/
def autoParticle (canvasW canvasH : ℚ) (a : AutoAttrs) : Particle :=
  mkParticle canvasW canvasH a.posX a.posY a.dir a.speed a.size false

/-! ## Particle count (`#targetParticleCount`) and store operations -/

/-- `#targetParticleCount()`:
`particleCount = Math.round(ppm * width * height / 1_000_000)` capped by
`Math.min(option.particles.max, particleCount)`; throws a `RangeError`
when the capped count is not finite, otherwise returns
`particleCount | 0`.  `ppm` is the resolved (32-bit integer) density,
`width`/`height` the simulation-box dimensions and `maxParticles` the
resolved `option.particles.max` (possibly `Infinity`). -/
def targetParticleCount (ppm : ℤ) (width height maxParticles : JsNum) :
    Except Unit ℤ :=
  let pc1 := jsRound (jsDiv (jsMul (jsMul (.num (ppm : ℚ)) width) height) (.num 1000000))
  let pc2 := jsMin maxParticles pc1
  if pc2.isFiniteb then Except.ok (toInt32 pc2) else Except.error ()

/-- The loop `for (let i = 0; i < particleCount; i++) this.#createParticle()`
(also the tail fill of `matchParticleCount`), drawing attribute tuples
`gen 0, gen 1, ...` from the pseudo-random stream. -/
def createAutoLoop (canvasW canvasH : ℚ) (gen : ℕ → AutoAttrs) (count : ℕ)
    (s : Store) : Store :=
  (List.range count).foldl (fun st i => createParticleAuto canvasW canvasH (gen i) st) s

/-- `newParticles({keepAuto = false, keepManual = true})`: filter the
retained particles, refresh the manual flag from the filtered length,
then (unless `keepAuto`) create `#targetParticleCount()` fresh
auto-generated particles.  The already-computed count is passed as `n`. -/
def newParticles (canvasW canvasH : ℚ) (keepAuto keepManual : Bool) (n : ℤ)
    (gen : ℕ → AutoAttrs) (s : Store) : Store :=
  let s1 : Store :=
    if s.hasManualParticles && (keepAuto || keepManual) then
      let kept := s.particles.filter
        (fun p => (keepAuto && !p.isManual) || (keepManual && p.isManual))
      { particles := kept, hasManualParticles := decide (0 < kept.length) }
    else
      { particles := [], hasManualParticles := s.hasManualParticles }
  if keepAuto then s1 else createAutoLoop canvasW canvasH gen n.toNat s1

/-- The manual-preserving prune of `matchParticleCount`: keep every
manual particle, and keep automatic particles only while `autoCount`
has not reached the target. -/
def pruneAuto (n : ℤ) : ℤ → List Particle → List Particle
  | _, [] => []
  | autoCount, p :: rest =>
    if p.isManual then p :: pruneAuto n autoCount rest
    else if n ≤ autoCount then pruneAuto n autoCount rest
    else p :: pruneAuto n (autoCount + 1) rest

/-- JavaScript `array.slice(0, k)` (a negative `k` counts from the end). -/
def jsSlice0 (k : ℤ) (l : List Particle) : List Particle :=
  if 0 ≤ k then l.take k.toNat else l.take ((l.length + k).toNat)

/-- `matchParticleCount({updateBounds = false})`: prune (manual-aware
when the store is flagged, plain `slice` otherwise), optionally refresh
bounds, then fill with fresh auto-generated particles up to the target
count `n` (the already-computed `#targetParticleCount()`). -/
def matchParticleCount (canvasW canvasH : ℚ) (updateBounds : Bool) (n : ℤ)
    (gen : ℕ → AutoAttrs) (s : Store) : Store :=
  let pruned :=
    if s.hasManualParticles then pruneAuto n 0 s.particles
    else jsSlice0 n s.particles
  let pruned2 :=
    if updateBounds then pruned.map (setBounds canvasW canvasH) else pruned
  let s1 : Store := { particles := pruned2, hasManualParticles := s.hasManualParticles }
  createAutoLoop canvasW canvasH gen (n - pruned2.length).toNat s1

/-- Store sanity invariant maintained by the engine: whenever some
particle is manual, the `hasManualParticles` flag is set (the flag is
set by every `createParticle` call and cleared only when the particle
list itself becomes empty). -/
def StoreInv (s : Store) : Prop :=
  s.particles.any (fun p => p.isManual) = true → s.hasManualParticles = true

instance (s : Store) : Decidable (StoreInv s) := by
  unfold StoreInv
  infer_instance

/-! ## Options resolver (`set options`, `parseNumericOption`) -/

/-- `defaultIfNaN(value, defaultValue)`. -/
def defaultIfNaN (v dflt : JsNum) : JsNum :=
  if v.isNaNb then dflt else v

/-- `parseNumericOption(name, value, defaultValue, clamp)`: absent
values resolve to the default unclamped; present values are clamped to
`[clampMin, clampMax]` and fall back to the default when NaN.  The
`console.warn` emitted when clamping changes the value has no effect on
the resolved state and is not modelled. -/
def parseNumericOption (value : Option JsNum) (dflt clampMin clampMax : JsNum) : JsNum :=
  match value with
  | none => dflt
  | some v => defaultIfNaN (jsMin (jsMax v clampMin) clampMax) dflt

/-- Sparse numeric/boolean configuration input (`CanvasParticlesOptionsInput`);
the color and background fields are resolved through the canvas context
and are outside the numeric model. -/
structure OptionsInput where
  startOnEnter : Option Bool
  stopOnLeave : Option Bool
  drawLines : Option Bool
  interactionType : Option JsNum
  connectDistMult : Option JsNum
  distRat : Option JsNum
  generationType : Option JsNum
  ppm : Option JsNum
  maxParticles : Option JsNum
  maxWork : Option JsNum
  connectDistance : Option JsNum
  relSpeed : Option JsNum
  relSize : Option JsNum
  rotationSpeed : Option JsNum
  repulsive : Option JsNum
  pulling : Option JsNum
  friction : Option JsNum
deriving DecidableEq, Repr

def emptyInput : OptionsInput :=
  { startOnEnter := none, stopOnLeave := none, drawLines := none
    interactionType := none, connectDistMult := none, distRat := none
    generationType := none, ppm := none, maxParticles := none
    maxWork := none, connectDistance := none, relSpeed := none
    relSize := none, rotationSpeed := none, repulsive := none
    pulling := none, friction := none }

/-- Fully resolved configuration (`CanvasParticlesOptions`), numeric and
boolean fields.  `mouseConnectDist` is the post-processed
`option.mouse.connectDist` set by `setMouseConnectDistMult`. -/
structure ResolvedOptions where
  startOnEnter : Bool
  stopOnLeave : Bool
  drawLines : Bool
  interactionType : ℤ
  connectDistMult : JsNum
  mouseConnectDist : JsNum
  distRat : JsNum
  generationType : ℤ
  ppm : ℤ
  maxParticles : JsNum
  maxWork : JsNum
  connectDist : ℤ
  relSpeed : JsNum
  relSize : JsNum
  rotationSpeed : JsNum
  repulsive : JsNum
  pulling : JsNum
  friction : JsNum
deriving DecidableEq, Repr

/-- The `set options(options)` setter together with the
`setMouseConnectDistMult` post-processing it invokes. -/
def resolveOptions (o : OptionsInput) : ResolvedOptions :=
  let cd : ℤ := toInt32 (parseNumericOption o.connectDistance (.num 150) (.num 1) .posInf)
  let mult := parseNumericOption o.connectDistMult (.num (2/3)) (.num 0) .posInf
  { startOnEnter := o.startOnEnter.getD true
    stopOnLeave := o.stopOnLeave.getD true
    drawLines := o.drawLines.getD true
    interactionType := toInt32 (parseNumericOption o.interactionType (.num 2) (.num 0) (.num 2))
    connectDistMult := mult
    mouseConnectDist :=
      jsMul (.num (cd : ℚ)) (defaultIfNaN (jsMin (jsMax mult (.num 0)) .posInf) (.num (2/3)))
    distRat := parseNumericOption o.distRat (.num (2/3)) (.num 0) .posInf
    generationType := toInt32 (parseNumericOption o.generationType (.num 2) (.num 0) (.num 2))
    ppm := toInt32 (parseNumericOption o.ppm (.num 100) .negInf .posInf)
    maxParticles := jsRound (parseNumericOption o.maxParticles .posInf (.num 0) .posInf)
    maxWork := jsRound (parseNumericOption o.maxWork .posInf (.num 0) .posInf)
    connectDist := cd
    relSpeed := parseNumericOption o.relSpeed (.num 1) (.num 0) .posInf
    relSize := parseNumericOption o.relSize (.num 1) (.num 0) .posInf
    rotationSpeed := jsDiv (parseNumericOption o.rotationSpeed (.num 2) (.num 0) .posInf) (.num 100)
    repulsive := parseNumericOption o.repulsive (.num 0) (.num 0) .posInf
    pulling := parseNumericOption o.pulling (.num 0) (.num 0) .posInf
    friction := parseNumericOption o.friction (.num (4/5)) (.num 0) (.num 1) }

/-! ## Force integrator (`#updateGravity`, `#updateParticles`) -/

/-- The softening term of `#updateGravity`:
`const epsilon = connectDist ** 2 / 256`. -/
def gravityEpsilon (connectDist : ℚ) : ℚ := connectDist ^ 2 / 256

/-- The pairwise squared distance of `#updateGravity`:
`distX * distX + distY * distY` on logical positions. -/
def particleDistSq (pa pb : Particle) : ℚ :=
  (pa.posX - pb.posX) * (pa.posX - pb.posX) + (pa.posY - pb.posY) * (pa.posY - pb.posY)

/-- The 3x3 grid coordinate derivation of `#updateParticles`:
`+(v >= lo) + +(v > hi)`. -/
def gridCoord (v lo hi : ℚ) : ℕ :=
  (if lo ≤ v then 1 else 0) + (if hi < v then 1 else 0)

/-- Per-frame constants read by `#updateParticles`.  `frictionPow`
stands for `Math.pow(friction, step)` and `easing` for
`1 - Math.pow(1 - 1/4, step)` (both equal `friction` resp. `1/4` at
`step = 1`); `twoPi` stands for `2 * Math.PI` in `p.dir %= TWO_PI`. -/
structure UpdateCtx where
  width : ℚ
  height : ℚ
  offX : ℚ
  offY : ℚ
  mouseX : ℚ
  mouseY : ℚ
  step : ℚ
  rotationSpeed : ℚ
  frictionPow : ℚ
  mouseConnectDist : ℚ
  mouseDistRat : ℚ
  interactionType : ℤ
  easing : ℚ
  twoPi : ℚ
deriving DecidableEq, Repr

/-- The body of the `#updateParticles` loop for one particle.  `rand`
is the `Math.random()` draw, `hyp` the value of
`Math.hypot(distX, distY)` and `sinDir`/`cosDir` the values of
`Math.sin(p.dir)`/`Math.cos(p.dir)` at the perturbed direction; they
are oracle inputs so every value the library functions can return is
covered (in the division `mouseConnectDist / hyp`, rational division
by zero yields 0 where JavaScript yields Infinity; the source reaches
`hyp = 0` only when the mouse sits exactly on the displaced particle). -/
def updateParticle (ctx : UpdateCtx) (rand hyp sinDir cosDir : ℚ) (p : Particle) : Particle :=
  let rotationSpeed := ctx.rotationSpeed * ctx.step
  let dir1 := p.dir + 2 * (rand - 1/2) * rotationSpeed * ctx.step
  let dir2 := jsMod dir1 ctx.twoPi
  let movX := sinDir * p.speed
  let movY := cosDir * p.speed
  let posX2 := wrapCoord (p.posX + (movX + p.velX) * ctx.step) ctx.width
  let posY2 := wrapCoord (p.posY + (movY + p.velY) * ctx.step) ctx.height
  let velX1 := p.velX * ctx.frictionPow
  let velY1 := p.velY * ctx.frictionPow
  let distX := posX2 + ctx.offX - ctx.mouseX
  let distY := posY2 + ctx.offY - ctx.mouseY
  let offPair : ℚ × ℚ :=
    if ctx.interactionType ≠ 0 then
      let dr := ctx.mouseConnectDist / hyp
      if ctx.mouseDistRat < dr then
        (p.offX + (dr * distX - distX - p.offX) * ctx.easing,
         p.offY + (dr * distY - distY - p.offY) * ctx.easing)
      else
        (p.offX - p.offX * ctx.easing, p.offY - p.offY * ctx.easing)
    else (p.offX, p.offY)
  let x1 := posX2 + offPair.1
  let y1 := posY2 + offPair.2
  let posX3 := if ctx.interactionType = 2 then x1 else posX2
  let posY3 := if ctx.interactionType = 2 then y1 else posY2
  let x2 := x1 + ctx.offX
  let y2 := y1 + ctx.offY
  let gx := gridCoord x2 p.bounds.left p.bounds.right
  let gy := gridCoord y2 p.bounds.top p.bounds.bottom
  { p with
    dir := dir2, velX := velX1, velY := velY1
    posX := posX3, posY := posY3
    offX := offPair.1, offY := offPair.2
    x := x2, y := y2
    gridPos := { x := gx, y := gy }
    isVisible := gx == 1 && gy == 1 }

/-! ## Visibility and connection renderer -/

/-- `static #isLineVisible(particleA, particleB)`. -/
def isLineVisible (pa pb : Particle) : Bool :=
  pa.isVisible || pb.isVisible ||
    !((pa.gridPos.x == pb.gridPos.x && pa.gridPos.x != 1) ||
      (pa.gridPos.y == pb.gridPos.y && pa.gridPos.y != 1))

/-- One emitted connection line (`moveTo`/`lineTo` endpoints). -/
structure LineSeg where
  x1 : ℚ
  y1 : ℚ
  x2 : ℚ
  y2 : ℚ
deriving DecidableEq, Repr

/-- The inner `j` loop of `#renderConnections` for a fixed `particleA`:
skip invisible or too-distant pairs, emit the line otherwise, and stop
(`break`) as soon as the accumulated work `particleWork += distSq`
reaches `maxWorkPerParticle`.  Whether the line is stroked immediately
(far half, attenuated alpha) or batched (near half) does not change the
emitted set, so only the segments are recorded. -/
def connFrom (drawAll : Bool) (maxDistSq maxWorkPer : ℚ) (pa : Particle) :
    List Particle → ℚ → List LineSeg
  | [], _ => []
  | pb :: rest, work =>
    if !drawAll && !isLineVisible pa pb then
      connFrom drawAll maxDistSq maxWorkPer pa rest work
    else
      let distSq := (pa.x - pb.x) * (pa.x - pb.x) + (pa.y - pb.y) * (pa.y - pb.y)
      if maxDistSq < distSq then
        connFrom drawAll maxDistSq maxWorkPer pa rest work
      else if maxWorkPer ≤ work + distSq then
        [{ x1 := pa.x, y1 := pa.y, x2 := pb.x, y2 := pb.y }]
      else
        { x1 := pa.x, y1 := pa.y, x2 := pb.x, y2 := pb.y } ::
          connFrom drawAll maxDistSq maxWorkPer pa rest (work + distSq)

/-- The outer `i` loop of `#renderConnections` over `i < j` pairs,
resetting `particleWork` to 0 for each `i`. -/
def connAll (drawAll : Bool) (maxDistSq maxWorkPer : ℚ) :
    List Particle → List LineSeg
  | [] => []
  | pa :: rest =>
      connFrom drawAll maxDistSq maxWorkPer pa rest 0 ++
        connAll drawAll maxDistSq maxWorkPer rest

/-- `#renderConnections()` as the list of connection lines it emits.
`maxDistSq = connectDist ** 2`, `drawAll` holds when the connect
distance covers the smaller canvas dimension, and
`maxWorkPerParticle = maxDistSq * option.particles.maxWork`. -/
def renderConnections (particles : List Particle)
    (connectDist maxWork canvasW canvasH : ℚ) : List LineSeg :=
  let maxDistSq := connectDist ^ 2
  let drawAll := decide (min canvasW canvasH ≤ connectDist)
  let maxWorkPer := maxDistSq * maxWork
  connAll drawAll maxDistSq maxWorkPer particles

/-- The far-half line transparency of `#renderConnections`:
`ctx.globalAlpha = alphaFactor / Math.sqrt(distSq) - alpha` with
`alphaFactor = color.alpha * connectDist`, expressed in the visual
distance `dist = Math.sqrt(distSq)`. -/
def connectionAlpha (alpha connectDist dist : ℚ) : ℚ :=
  alpha * connectDist / dist - alpha

/-! ## Range predicates for the resolved configuration -/

/-- A provided numeric input is tame when it is absent, NaN, or finite
with magnitude below `2^31` (so the source's `~~`/`Math.round` coercions
do not wrap). -/
def tameValb : Option JsNum → Bool
  | none => true
  | some .nan => true
  | some (.num q) => decide (|q| < 2147483648)
  | some _ => false

def tameInputb (o : OptionsInput) : Bool :=
  tameValb o.interactionType && tameValb o.connectDistMult && tameValb o.distRat &&
  tameValb o.generationType && tameValb o.ppm && tameValb o.maxParticles &&
  tameValb o.maxWork && tameValb o.connectDistance && tameValb o.relSpeed &&
  tameValb o.relSize && tameValb o.rotationSpeed && tameValb o.repulsive &&
  tameValb o.pulling && tameValb o.friction

def nonNegFiniteb : JsNum → Bool
  | .num q => decide (0 ≤ q)
  | _ => false

def nonNegOrPosInfb : JsNum → Bool
  | .num q => decide (0 ≤ q)
  | .posInf => true
  | _ => false

def unitIntervalb : JsNum → Bool
  | .num q => decide (0 ≤ q ∧ q ≤ 1)
  | _ => false

/-- Documented clamp ranges of every numeric field of the resolved
configuration, with non-NaN-ness built in: the interaction and
generation types lie in `{0, 1, 2}`, `connectDist >= 1`, `friction` in
`[0, 1]`, the remaining rates and multipliers are finite and
non-negative, and `particles.max` / `particles.maxWork` are non-negative
or `Infinity`. -/
def inClampRangesb (r : ResolvedOptions) : Bool :=
  decide (0 ≤ r.interactionType ∧ r.interactionType ≤ 2) &&
  decide (0 ≤ r.generationType ∧ r.generationType ≤ 2) &&
  decide (1 ≤ r.connectDist) &&
  nonNegFiniteb r.connectDistMult &&
  nonNegFiniteb r.mouseConnectDist &&
  nonNegFiniteb r.distRat &&
  nonNegOrPosInfb r.maxParticles &&
  nonNegOrPosInfb r.maxWork &&
  nonNegFiniteb r.relSpeed &&
  nonNegFiniteb r.relSize &&
  nonNegFiniteb r.rotationSpeed &&
  nonNegFiniteb r.repulsive &&
  nonNegFiniteb r.pulling &&
  unitIntervalb r.friction

/-! ## Reduction helpers for the JavaScript number model -/

@[simp] lemma jsMax_num_num (a b : ℚ) : jsMax (.num a) (.num b) = .num (max a b) := rfl

@[simp] lemma jsMin_num_num (a b : ℚ) : jsMin (.num a) (.num b) = .num (min a b) := rfl

@[simp] lemma jsMin_num_posInf (q : ℚ) : jsMin (.num q) .posInf = .num q := rfl

@[simp] lemma jsMin_posInf_num (q : ℚ) : jsMin .posInf (.num q) = .num q := rfl

@[simp] lemma jsMax_num_negInf (q : ℚ) : jsMax (.num q) .negInf = .num q := rfl

@[simp] lemma jsMul_num_num (a b : ℚ) : jsMul (.num a) (.num b) = .num (a * b) := rfl

@[simp] lemma jsRound_num (q : ℚ) : jsRound (.num q) = .num ((⌊q + 1/2⌋ : ℤ) : ℚ) := rfl

@[simp] lemma jsDiv_num_num (a b : ℚ) (hb : b ≠ 0) :
    jsDiv (.num a) (.num b) = .num (a / b) := by
  simp [jsDiv, hb]

@[simp] lemma defaultIfNaN_num (q : ℚ) (d : JsNum) : defaultIfNaN (.num q) d = .num q := rfl

lemma pno_none (d mn mx : JsNum) : parseNumericOption none d mn mx = d := rfl

lemma pno_nan (d : ℚ) (lo mx : JsNum) :
    parseNumericOption (some .nan) (.num d) lo mx = .num d := by
  cases lo <;> cases mx <;> rfl

/-- Behaviour of `parseNumericOption` with only a lower clamp on an
in-range finite or NaN input. -/
lemma pno_lower (v : Option JsNum) (hv : tameValb v = true) (d lo : ℚ)
    (hlo : lo ≤ d) (hd : d < 2147483648) :
    ∃ q : ℚ, parseNumericOption v (.num d) (.num lo) .posInf = .num q ∧
      lo ≤ q ∧ q < 2147483648 := by
  cases v with
  | none => exact ⟨d, rfl, hlo, hd⟩
  | some w =>
    cases w with
    | nan => exact ⟨d, pno_nan d _ _, hlo, hd⟩
    | posInf => simp [tameValb] at hv
    | negInf => simp [tameValb] at hv
    | num x =>
      have hx : |x| < 2147483648 := by simpa [tameValb] using hv
      refine ⟨max x lo, ?_, le_max_right _ _, ?_⟩
      · simp [parseNumericOption]
      · exact max_lt (abs_lt.mp hx).2 (lt_of_le_of_lt hlo hd)

/-- Behaviour of `parseNumericOption` with both clamps on a finite or
NaN input. -/
lemma pno_minmax (v : Option JsNum) (hv : tameValb v = true) (d lo hi : ℚ)
    (h1 : lo ≤ d) (h2 : d ≤ hi) :
    ∃ q : ℚ, parseNumericOption v (.num d) (.num lo) (.num hi) = .num q ∧
      lo ≤ q ∧ q ≤ hi := by
  cases v with
  | none => exact ⟨d, rfl, h1, h2⟩
  | some w =>
    cases w with
    | nan => exact ⟨d, pno_nan d _ _, h1, h2⟩
    | posInf => simp [tameValb] at hv
    | negInf => simp [tameValb] at hv
    | num x =>
      refine ⟨min (max x lo) hi, ?_, ?_, min_le_right _ _⟩
      · simp [parseNumericOption]
      · exact le_min (le_max_right _ _) (h1.trans h2)

/-! ## C7 — symmetry of `#isLineVisible` -/

lemma gridBand_symm (a b : ℕ) : ((a == b) && (a != 1)) = ((b == a) && (b != 1)) := by
  by_cases h : a = b
  · subst h; rfl
  · have h1 : (a == b) = false := by simpa using h
    have h2 : (b == a) = false := by simpa using Ne.symm h
    rw [h1, h2, Bool.false_and, Bool.false_and]

/-- C7: for all particles `a` and `b` — every combination of grid
positions and `isVisible` flags — `#isLineVisible(a, b)` equals
`#isLineVisible(b, a)`. -/
theorem isLineVisible_symm (pa pb : Particle) :
    isLineVisible pa pb = isLineVisible pb pa := by
  unfold isLineVisible
  rw [gridBand_symm pa.gridPos.x pb.gridPos.x, gridBand_symm pa.gridPos.y pb.gridPos.y]
  cases pa.isVisible <;> cases pb.isVisible <;> rfl

/-! ## C8 — the pseudo-random source produces values in `[0, 1)` -/

lemma mulberry32_unit_aux (r : ℕ) :
    0 ≤ ((r % UINT32 : ℕ) : ℚ) / (UINT32 : ℚ) ∧
    ((r % UINT32 : ℕ) : ℚ) / (UINT32 : ℚ) < 1 := by
  constructor
  · positivity
  · rw [div_lt_one (by norm_num [UINT32])]
    have h : r % UINT32 < UINT32 := Nat.mod_lt _ (by norm_num [UINT32])
    exact_mod_cast h

/-- C8: for every internal state (hence every 32-bit seed and every
reachable state), one `next()` call of the `Mulberry32` generator
returns a value `x` with `0 <= x < 1`. -/
theorem mulberry32Next_mem_unit (state : ℕ) :
    0 ≤ (mulberry32Next state).2 ∧ (mulberry32Next state).2 < 1 :=
  mulberry32_unit_aux _

/-! ## C9 — the gravity softening term keeps the radicand positive -/

/-- C9: for every pair of particles, coincident ones included, and
under the resolved-configuration precondition `connectDist >= 1`, the
quantity `distSq + epsilon` of `#updateGravity` (with
`epsilon = connectDist^2 / 256`) is strictly positive, so
`1 / Math.sqrt(distSq + epsilon)` never divides by zero. -/
theorem updateGravity_radicand_pos (pa pb : Particle) (connectDist : ℚ)
    (h : 1 ≤ connectDist) :
    0 < particleDistSq pa pb + gravityEpsilon connectDist := by
  unfold particleDistSq gravityEpsilon
  nlinarith [mul_self_nonneg (pa.posX - pb.posX), mul_self_nonneg (pa.posY - pb.posY),
    sq_nonneg (connectDist - 1)]

/-- Demonstration particle used by witnesses (a manual particle at
`(10, 10)` on a 500x500 canvas). -/
def demoParticle : Particle := mkParticle 500 500 10 10 0 1 5 true

/-- Witness for C9 at two coincident particles and the default
`connectDist = 150`. -/
theorem updateGravity_radicand_pos_witness :
    (1 : ℚ) ≤ 150 ∧ 0 < particleDistSq demoParticle demoParticle + gravityEpsilon 150 :=
  ⟨by norm_num, updateGravity_radicand_pos demoParticle demoParticle 150 (by norm_num)⟩

/-! ## C3 — connection rendering under `maxWork = 0` -/

lemma connFrom_maxWorkPer_zero_len (drawAll : Bool) (maxDistSq : ℚ) (pa : Particle) :
    ∀ (l : List Particle) (w : ℚ), 0 ≤ w →
      (connFrom drawAll maxDistSq 0 pa l w).length ≤ 1 := by
  intro l
  induction l with
  | nil => intro w _; simp [connFrom]
  | cons pb rest ih =>
    intro w hw
    have hsq : 0 ≤ (pa.x - pb.x) * (pa.x - pb.x) + (pa.y - pb.y) * (pa.y - pb.y) := by
      have := mul_self_nonneg (pa.x - pb.x)
      have := mul_self_nonneg (pa.y - pb.y)
      linarith
    simp only [connFrom]
    split_ifs with h1 h2 h3
    · exact ih w hw
    · exact ih w hw
    · simp
    · exact absurd (by linarith) h3

lemma connAll_maxWorkPer_zero_len (drawAll : Bool) (maxDistSq : ℚ) :
    ∀ l : List Particle, (connAll drawAll maxDistSq 0 l).length ≤ l.length := by
  intro l
  induction l with
  | nil => simp [connAll]
  | cons pa rest ih =>
    simp only [connAll, List.length_append, List.length_cons]
    have h1 := connFrom_maxWorkPer_zero_len drawAll maxDistSq pa rest 0 le_rfl
    omega

/-- C3 counterexample: two coincident particles in the visible center
with `maxWork = 0` still produce one connection line — the work cap is
checked only after a line has been drawn, so the first eligible line of
each outer particle is always emitted.  This refutes "zero connection
lines regardless of proximity". -/
theorem renderConnections_maxWork0_cex :
    (renderConnections [demoParticle, demoParticle] 150 0 500 500).length = 1 := by
  with_unfolding_all decide

/-- C3 amended: with `maxWork = 0`, each outer particle of one
`#renderConnections` pass emits at most one connection line, so the
whole pass emits at most `particles.length` lines (but not necessarily
zero). -/
theorem renderConnections_maxWork0_len (particles : List Particle)
    (connectDist canvasW canvasH : ℚ) :
    (renderConnections particles connectDist 0 canvasW canvasH).length ≤ particles.length := by
  unfold renderConnections
  simp only [mul_zero]
  exact connAll_maxWorkPer_zero_len _ _ particles

/-! ## C2 — the position wrap invariant of `#updateParticles` -/

/-- C2 amended: after one `#updateParticles` step in NONE or SHIFT
mouse-interaction mode, the logical position satisfies
`0 <= posX < width` and `0 <= posY < height` for every particle and
every oracle value of the randomness and math-library calls.  (In MOVE
mode the wrapped position is overwritten by the mouse-displaced visual
position afterwards and may leave the box; see the counterexample.) -/
theorem updateParticle_pos_wrapped (ctx : UpdateCtx) (rand hyp sinDir cosDir : ℚ)
    (p : Particle) (hw : 0 < ctx.width) (hh : 0 < ctx.height)
    (hmode : ctx.interactionType ≠ 2) :
    0 ≤ (updateParticle ctx rand hyp sinDir cosDir p).posX ∧
    (updateParticle ctx rand hyp sinDir cosDir p).posX < ctx.width ∧
    0 ≤ (updateParticle ctx rand hyp sinDir cosDir p).posY ∧
    (updateParticle ctx rand hyp sinDir cosDir p).posY < ctx.height := by
  have hx := wrapCoord_nonneg_lt (p.posX + (sinDir * p.speed + p.velX) * ctx.step) ctx.width hw
  have hy := wrapCoord_nonneg_lt (p.posY + (cosDir * p.speed + p.velY) * ctx.step) ctx.height hh
  simp only [updateParticle, hmode, if_neg, if_false, reduceIte]
  exact ⟨hx.1, hx.2, hy.1, hy.2⟩

/-- Frame context of the MOVE-mode counterexample: a 300x300 simulation
box around a zero-sized canvas (`connectDist = 150` gives box offsets
`-150`), the mouse far away on the x-axis, reference step 1 (so
`easing = 1/4` and `friction^step = friction` exactly). -/
def moveCtx : UpdateCtx :=
  { width := 300, height := 300, offX := -150, offY := -150
    mouseX := -1400, mouseY := 100, step := 1, rotationSpeed := 0
    frictionPow := 4/5, mouseConnectDist := 100, mouseDistRat := 2/3
    interactionType := 2, easing := 1/4, twoPi := 7 }

/-- A particle that already carries a mouse offset `offX = 80`
(accumulated by earlier frames easing toward the arm's-length target)
and sits at `posX = 250` with zero speed and velocity. -/
def moveParticle : Particle :=
  { posX := 250, posY := 250, x := 0, y := 0, velX := 0, velY := 0
    offX := 80, offY := 0, dir := 0, speed := 0, size := 5
    gridPos := { x := 1, y := 1 }, isVisible := false, isManual := false
    bounds := particleBounds 0 0 5 }

/-- C2 counterexample: in MOVE mode (`interactionType = 2`) the step
commits `posX := wrapped + offX`; with the wrapped position 250 and the
eased offset 60 the resulting `posX = 310` violates `posX < width = 300`.
The oracle inputs are exact: `rand = 1/2` (zero jitter),
`sin(0) = 0`, `cos(0) = 1`, and `Math.hypot(1500, 0) = 1500`. -/
theorem updateParticle_move_cex :
    (updateParticle moveCtx (1/2) 1500 0 1 moveParticle).posX = 310 ∧
    ¬ (updateParticle moveCtx (1/2) 1500 0 1 moveParticle).posX < moveCtx.width := by
  with_unfolding_all decide

/-- Frame context with mouse interaction NONE used by the C2 witness. -/
def noneCtx : UpdateCtx :=
  { moveCtx with interactionType := 0 }

/-- Witness for C2: the wrap invariant evaluated at a concrete NONE-mode
frame. -/
theorem updateParticle_pos_wrapped_witness :
    0 ≤ (updateParticle noneCtx (1/2) 1500 0 1 moveParticle).posX ∧
    (updateParticle noneCtx (1/2) 1500 0 1 moveParticle).posX < noneCtx.width ∧
    0 ≤ (updateParticle noneCtx (1/2) 1500 0 1 moveParticle).posY ∧
    (updateParticle noneCtx (1/2) 1500 0 1 moveParticle).posY < noneCtx.height :=
  updateParticle_pos_wrapped noneCtx (1/2) 1500 0 1 moveParticle
    (by norm_num [noneCtx, moveCtx]) (by norm_num [noneCtx, moveCtx])
    (by with_unfolding_all decide)

/-! ## C1 — the target particle count -/

/-- Sparse input whose only provided field is `particles.ppm = -100`
(resolvable, since `ppm` has no clamp). -/
def negPpmInput : OptionsInput := { emptyInput with ppm := some (.num (-100)) }

/-- C1 counterexample: the options resolver accepts `ppm = -100`, and on
a 1000x1000 simulation box with the default `max = Infinity` the target
count `#targetParticleCount` returns `-100`, a negative value — the
claim's "finite non-negative integer" fails for this resolved
configuration. -/
theorem targetParticleCount_negative_cex :
    (resolveOptions negPpmInput).ppm = -100 ∧
    targetParticleCount (-100) (.num 1000) (.num 1000) .posInf = Except.ok (-100) ∧
    ¬ (0 : ℤ) ≤ -100 := by
  refine ⟨?_, ?_, by norm_num⟩
  · with_unfolding_all decide
  · with_unfolding_all rfl

lemma targetParticleCount_def (ppm : ℤ) (w h mx : JsNum) :
    targetParticleCount ppm w h mx =
      (if (jsMin mx (jsRound (jsDiv (jsMul (jsMul (.num (ppm : ℚ)) w) h)
            (.num 1000000)))).isFiniteb = true
       then Except.ok (toInt32 (jsMin mx (jsRound (jsDiv
            (jsMul (jsMul (.num (ppm : ℚ)) w) h) (.num 1000000)))))
       else Except.error ()) := rfl

/-- C1 amended: the target count equals
`toInt32 (min(max, round(ppm * width * height / 1e6)))`; whenever
`ppm >= 0`, the box dimensions are non-negative finite numbers, the
configured max is `Infinity` or a non-negative integer below `2^31`,
and the rounded density count is below `2^31`, the result is exactly
`min(max, round(ppm * width * height / 1e6))`, a finite non-negative
integer `<=` the configured max; and whenever the capped value is not
finite, the `RangeError` branch is taken. -/
theorem targetParticleCount_amended :
    (∀ (ppm : ℤ) (w h : ℚ) (mx : JsNum),
      0 ≤ ppm → 0 ≤ w → 0 ≤ h →
      (mx = JsNum.posInf ∨ ∃ mz : ℤ, mx = .num (mz : ℚ) ∧ 0 ≤ mz ∧ mz < 2147483648) →
      (⌊(ppm : ℚ) * w * h / 1000000 + 1/2⌋ : ℤ) < 2147483648 →
      ∃ n : ℤ,
        targetParticleCount ppm (.num w) (.num h) mx = Except.ok n ∧
        JsNum.num (n : ℚ) =
          jsMin mx (jsRound (jsDiv (jsMul (jsMul (.num (ppm : ℚ)) (.num w)) (.num h))
            (.num 1000000))) ∧
        0 ≤ n ∧
        jsLeb (.num (n : ℚ)) mx = true) ∧
    (∀ (ppm : ℤ) (w h mx : JsNum),
      (jsMin mx (jsRound (jsDiv (jsMul (jsMul (.num (ppm : ℚ)) w) h)
        (.num 1000000)))).isFiniteb = false →
      targetParticleCount ppm w h mx = Except.error ()) := by
  constructor
  · intro ppm w h mx hp hw hh hmx hr31
    have hx : (0 : ℚ) ≤ (ppm : ℚ) * w * h / 1000000 := by positivity
    set r : ℤ := ⌊(ppm : ℚ) * w * h / 1000000 + 1/2⌋ with hrdef
    have hr0 : 0 ≤ r := Int.floor_nonneg.mpr (by linarith)
    have hred : jsRound (jsDiv (jsMul (jsMul (.num (ppm : ℚ)) (.num w)) (.num h))
        (.num 1000000)) = .num (r : ℚ) := by
      rw [jsMul_num_num, jsMul_num_num, jsDiv_num_num _ _ (by norm_num), jsRound_num]
    rcases hmx with hinf | ⟨mz, hmz, hmz0, hmz31⟩
    · refine ⟨r, ?_, ?_, hr0, ?_⟩
      · rw [targetParticleCount_def, hred, hinf, jsMin_posInf_num]
        rw [if_pos (show (JsNum.num (r : ℚ)).isFiniteb = true from rfl),
          toInt32_of_mem_int32 (r : ℚ) (by exact_mod_cast hr0) (by exact_mod_cast hr31),
          Int.floor_intCast]
      · rw [hred, hinf, jsMin_posInf_num]
      · rw [hinf]; rfl
    · refine ⟨min mz r, ?_, ?_, le_min hmz0 hr0, ?_⟩
      · rw [targetParticleCount_def, hred, hmz, jsMin_num_num, ← Int.cast_min]
        rw [if_pos (show (JsNum.num ((min mz r : ℤ) : ℚ)).isFiniteb = true from rfl),
          toInt32_of_mem_int32 ((min mz r : ℤ) : ℚ)
            (by exact_mod_cast le_min hmz0 hr0)
            (by exact_mod_cast lt_of_le_of_lt (min_le_left mz r) hmz31),
          Int.floor_intCast]
      · rw [hred, hmz, jsMin_num_num, Int.cast_min]
      · rw [hmz]
        simp only [jsLeb, decide_eq_true_eq]
        exact_mod_cast min_le_left mz r
  · intro ppm w h mx hfin
    rw [targetParticleCount_def, if_neg]
    rw [hfin]
    exact Bool.false_ne_true

/-- Witness for C1 amended at `ppm = 100`, a 1000x1000 box and the
default `max = Infinity` (count 100), plus the RangeError branch at an
infinite box width. -/
theorem targetParticleCount_amended_witness :
    (∃ n : ℤ,
      targetParticleCount 100 (.num 1000) (.num 1000) .posInf = Except.ok n ∧
      JsNum.num (n : ℚ) =
        jsMin .posInf (jsRound (jsDiv (jsMul (jsMul (.num ((100 : ℤ) : ℚ)) (.num 1000))
          (.num 1000)) (.num 1000000))) ∧
      0 ≤ n ∧
      jsLeb (.num (n : ℚ)) .posInf = true) ∧
    targetParticleCount 100 .posInf (.num 1000) .posInf = Except.error () :=
  ⟨targetParticleCount_amended.1 100 1000 1000 .posInf (by norm_num) (by norm_num)
      (by norm_num) (Or.inl rfl) (by with_unfolding_all decide),
    targetParticleCount_amended.2 100 .posInf (.num 1000) .posInf
      (by with_unfolding_all decide)⟩

/-! ## C10 / C4 — store operations -/

lemma createParticleAuto_particles (canvasW canvasH : ℚ) (a : AutoAttrs) (st : Store) :
    (createParticleAuto canvasW canvasH a st).particles =
      st.particles ++ [autoParticle canvasW canvasH a] := rfl

lemma createParticleAuto_flag (canvasW canvasH : ℚ) (a : AutoAttrs) (st : Store) :
    (createParticleAuto canvasW canvasH a st).hasManualParticles = true := rfl

lemma createAutoLoop_particles (canvasW canvasH : ℚ) (gen : ℕ → AutoAttrs) :
    ∀ (count : ℕ) (s : Store),
      (createAutoLoop canvasW canvasH gen count s).particles =
        s.particles ++ (List.range count).map (fun i => autoParticle canvasW canvasH (gen i)) := by
  intro count
  induction count with
  | zero => intro s; simp [createAutoLoop]
  | succ k ih =>
    intro s
    unfold createAutoLoop at ih ⊢
    rw [List.range_succ, List.foldl_append]
    simp only [List.foldl_cons, List.foldl_nil]
    rw [createParticleAuto_particles, ih s]
    simp [List.map_append, List.append_assoc]

lemma createAutoLoop_flag (canvasW canvasH : ℚ) (gen : ℕ → AutoAttrs) :
    ∀ (count : ℕ) (s : Store),
      (createAutoLoop canvasW canvasH gen count s).hasManualParticles =
        (if count = 0 then s.hasManualParticles else true) := by
  intro count
  induction count with
  | zero => intro s; simp [createAutoLoop]
  | succ k ih =>
    intro s
    unfold createAutoLoop at ih ⊢
    rw [List.range_succ, List.foldl_append]
    simp only [List.foldl_cons, List.foldl_nil]
    rw [createParticleAuto_flag]
    simp

/-- C10: every `createParticle` call — including the `#createParticle`
auto-generation path, which passes `isManual = false` — unconditionally
sets the store's `hasManualParticles` flag; hence after any
auto-population (a default `newParticles` run on an empty store) the
store is flagged as containing manual particles even though every
particle in it has `isManual = false`. -/
theorem createParticle_always_flags_manual :
    (∀ (canvasW canvasH posX posY dir speed size : ℚ) (isManual : Bool) (s : Store),
      (createParticle canvasW canvasH posX posY dir speed size isManual s).hasManualParticles
        = true) ∧
    (∀ (canvasW canvasH : ℚ) (n : ℤ) (gen : ℕ → AutoAttrs), 1 ≤ n →
      (newParticles canvasW canvasH false true n gen emptyStore).hasManualParticles = true ∧
      ∀ p ∈ (newParticles canvasW canvasH false true n gen emptyStore).particles,
        p.isManual = false) := by
  constructor
  · intro canvasW canvasH posX posY dir speed size isManual s
    rfl
  · intro canvasW canvasH n gen hn
    have hnz : n.toNat ≠ 0 := by omega
    constructor
    · show (createAutoLoop canvasW canvasH gen n.toNat
          { particles := [], hasManualParticles := false }).hasManualParticles = true
      rw [createAutoLoop_flag, if_neg hnz]
    · intro p hp
      have hp2 : p ∈ (createAutoLoop canvasW canvasH gen n.toNat
          { particles := [], hasManualParticles := false }).particles := hp
      rw [createAutoLoop_particles] at hp2
      simp only [List.nil_append, List.mem_map] at hp2
      obtain ⟨i, _, hpi⟩ := hp2
      rw [← hpi]
      rfl

/-- Witness for C10's auto-population conjunct at `n = 1`. -/
theorem createParticle_always_flags_manual_witness :
    (1 : ℤ) ≤ 1 ∧
    (newParticles 500 500 false true 1 (fun _ => ⟨1, 2, 3, 4, 5⟩) emptyStore).hasManualParticles
      = true :=
  ⟨le_refl 1,
    (createParticle_always_flags_manual.2 500 500 1 (fun _ => ⟨1, 2, 3, 4, 5⟩) (le_refl 1)).1⟩

lemma pruneAuto_keeps_manual (n : ℤ) (p : Particle) (hman : p.isManual = true) :
    ∀ (l : List Particle) (c : ℤ), p ∈ l → p ∈ pruneAuto n c l := by
  intro l
  induction l with
  | nil => intro c h; cases h
  | cons q rest ih =>
    intro c hmem
    rcases List.mem_cons.mp hmem with rfl | hmem2
    · unfold pruneAuto
      rw [if_pos hman]
      exact List.mem_cons_self _ _
    · unfold pruneAuto
      by_cases hq : q.isManual = true
      · rw [if_pos hq]
        exact List.mem_cons_of_mem _ (ih c hmem2)
      · rw [if_neg hq]
        by_cases hc : n ≤ c
        · rw [if_pos hc]
          exact ih c hmem2
        · rw [if_neg hc]
          exact List.mem_cons_of_mem _ (ih (c + 1) hmem2)

lemma newParticles_default_nonmanual (canvasW canvasH : ℚ) (n : ℤ)
    (gen : ℕ → AutoAttrs) (s : Store) :
    (newParticles canvasW canvasH false true n gen s).particles.filter
        (fun p => !p.isManual) =
      (List.range n.toNat).map (fun i => autoParticle canvasW canvasH (gen i)) := by
  have hfresh : ((List.range n.toNat).map
      (fun i => autoParticle canvasW canvasH (gen i))).filter (fun p => !p.isManual) =
      (List.range n.toNat).map (fun i => autoParticle canvasW canvasH (gen i)) := by
    apply List.filter_eq_self.mpr
    intro a ha
    obtain ⟨i, _, rfl⟩ := List.mem_map.mp ha
    rfl
  simp only [newParticles]
  cases hf : s.hasManualParticles with
  | false =>
    simp only [hf, Bool.false_and, Bool.false_eq_true, if_false]
    rw [createAutoLoop_particles]
    simpa using hfresh
  | true =>
    simp only [hf, Bool.true_and, Bool.false_or, Bool.true_or, if_true, Bool.false_eq_true,
      if_false]
    rw [createAutoLoop_particles]
    show ((s.particles.filter _) ++ _).filter _ = _
    rw [List.filter_append, hfresh]
    have hk : s.particles.filter (fun p => (false && !p.isManual) || p.isManual) =
        s.particles.filter (fun p => p.isManual) := by
      apply List.filter_congr
      intro a _
      simp
    rw [hk]
    have hkk : (s.particles.filter (fun p => p.isManual)).filter (fun p => !p.isManual) = [] := by
      induction s.particles with
      | nil => rfl
      | cons q rest ihq =>
        by_cases hq : q.isManual = true
        · simp [hq, ihq]
        · simp only [List.filter_cons]
          simp [hq, ihq]
    rw [hkk, List.nil_append]

/-- C4: for every prior store state satisfying the store invariant,
`matchParticleCount` retains every manual particle (with refreshed
bounds when `updateBounds` is set); and a default `newParticles` call
(`keepAuto = false`, `keepManual = true`) leaves exactly the fresh
auto-generated particles as its non-manual population — it removes
every previously present non-manual particle and creates exactly `n`
(the target count) fresh ones. -/
theorem matchParticleCount_newParticles_c4 :
    ∀ (canvasW canvasH : ℚ) (updateBounds : Bool) (n : ℤ) (gen : ℕ → AutoAttrs) (s : Store),
      StoreInv s → 0 ≤ n →
      (∀ p ∈ s.particles, p.isManual = true →
        (if updateBounds then setBounds canvasW canvasH p else p) ∈
          (matchParticleCount canvasW canvasH updateBounds n gen s).particles) ∧
      ((newParticles canvasW canvasH false true n gen s).particles.filter
          (fun p => !p.isManual) =
        (List.range n.toNat).map (fun i => autoParticle canvasW canvasH (gen i))) ∧
      (((newParticles canvasW canvasH false true n gen s).particles.filter
          (fun p => !p.isManual)).length : ℤ) = n := by
  intro canvasW canvasH updateBounds n gen s hsi h0n
  refine ⟨?_, newParticles_default_nonmanual canvasW canvasH n gen s, ?_⟩
  · intro p hp hman
    have hf : s.hasManualParticles = true :=
      hsi (List.any_eq_true.mpr ⟨p, hp, hman⟩)
    have h1 : p ∈ pruneAuto n 0 s.particles := pruneAuto_keeps_manual n p hman s.particles 0 hp
    simp only [matchParticleCount, hf, if_true]
    rw [createAutoLoop_particles]
    apply List.mem_append_left
    cases updateBounds with
    | false => simpa using h1
    | true =>
      simp only [if_true]
      exact List.mem_map_of_mem _ h1
  · rw [newParticles_default_nonmanual canvasW canvasH n gen s]
    simp [Int.toNat_of_nonneg h0n]

/-- A concrete store with one manual and one auto particle, used by the
C4 witness. -/
def demoStore : Store :=
  { particles := [demoParticle, mkParticle 500 500 20 20 0 1 1 false]
    hasManualParticles := true }

def demoGen : ℕ → AutoAttrs := fun _ => { posX := 1, posY := 2, dir := 3, speed := 4, size := 5 }

/-- Witness for C4 at a concrete two-particle store with `n = 1`. -/
theorem matchParticleCount_newParticles_c4_witness :
    StoreInv demoStore ∧
    ((∀ p ∈ demoStore.particles, p.isManual = true →
        (if true then setBounds 640 480 p else p) ∈
          (matchParticleCount 640 480 true 1 demoGen demoStore).particles) ∧
      ((newParticles 640 480 false true 1 demoGen demoStore).particles.filter
          (fun p => !p.isManual) =
        (List.range (1 : ℤ).toNat).map (fun i => autoParticle 640 480 (demoGen i))) ∧
      (((newParticles 640 480 false true 1 demoGen demoStore).particles.filter
          (fun p => !p.isManual)).length : ℤ) = 1) :=
  ⟨by with_unfolding_all decide,
    matchParticleCount_newParticles_c4 640 480 true 1 demoGen demoStore
      (by with_unfolding_all decide) (by norm_num)⟩

/-! ## C5 — ranges of the resolved configuration -/

lemma resolve_interactionType_range (o : OptionsInput)
    (hv : tameValb o.interactionType = true) :
    0 ≤ (resolveOptions o).interactionType ∧ (resolveOptions o).interactionType ≤ 2 := by
  obtain ⟨q, hq, h0, h2⟩ := pno_minmax o.interactionType hv 2 0 2 (by norm_num) (by norm_num)
  have hproj : (resolveOptions o).interactionType =
      toInt32 (parseNumericOption o.interactionType (.num 2) (.num 0) (.num 2)) := rfl
  rw [hproj, hq, toInt32_of_mem_int32 q h0 (lt_of_le_of_lt h2 (by norm_num))]
  refine ⟨Int.floor_nonneg.mpr h0, ?_⟩
  calc ⌊q⌋ ≤ ⌊(2 : ℚ)⌋ := Int.floor_le_floor h2
  _ = 2 := by norm_num

lemma resolve_generationType_range (o : OptionsInput)
    (hv : tameValb o.generationType = true) :
    0 ≤ (resolveOptions o).generationType ∧ (resolveOptions o).generationType ≤ 2 := by
  obtain ⟨q, hq, h0, h2⟩ := pno_minmax o.generationType hv 2 0 2 (by norm_num) (by norm_num)
  have hproj : (resolveOptions o).generationType =
      toInt32 (parseNumericOption o.generationType (.num 2) (.num 0) (.num 2)) := rfl
  rw [hproj, hq, toInt32_of_mem_int32 q h0 (lt_of_le_of_lt h2 (by norm_num))]
  refine ⟨Int.floor_nonneg.mpr h0, ?_⟩
  calc ⌊q⌋ ≤ ⌊(2 : ℚ)⌋ := Int.floor_le_floor h2
  _ = 2 := by norm_num

lemma resolve_connectDist_range (o : OptionsInput)
    (hv : tameValb o.connectDistance = true) :
    1 ≤ (resolveOptions o).connectDist ∧ (resolveOptions o).connectDist < 2147483648 := by
  obtain ⟨q, hq, h1, h31⟩ := pno_lower o.connectDistance hv 150 1 (by norm_num) (by norm_num)
  have hproj : (resolveOptions o).connectDist =
      toInt32 (parseNumericOption o.connectDistance (.num 150) (.num 1) .posInf) := rfl
  rw [hproj, hq, toInt32_of_mem_int32 q (zero_le_one.trans h1) h31]
  exact ⟨Int.le_floor.mpr (by exact_mod_cast h1), Int.floor_lt.mpr (by exact_mod_cast h31)⟩

lemma pno_lower_nonNegFinite (v : Option JsNum) (hv : tameValb v = true) (d : ℚ)
    (hd0 : 0 ≤ d) (hd31 : d < 2147483648) :
    nonNegFiniteb (parseNumericOption v (.num d) (.num 0) .posInf) = true := by
  obtain ⟨q, hq, h0, _⟩ := pno_lower v hv d 0 hd0 hd31
  rw [hq]
  simpa [nonNegFiniteb] using h0

lemma pno_round_min0_range (v : Option JsNum) (hv : tameValb v = true) :
    nonNegOrPosInfb (jsRound (parseNumericOption v .posInf (.num 0) .posInf)) = true := by
  cases v with
  | none => rfl
  | some w =>
    cases w with
    | nan => rfl
    | posInf => simp [tameValb] at hv
    | negInf => simp [tameValb] at hv
    | num x =>
      have hx : parseNumericOption (some (.num x)) .posInf (.num 0) .posInf =
          .num (max x 0) := by
        simp [parseNumericOption]
      rw [hx, jsRound_num]
      simp only [nonNegOrPosInfb, decide_eq_true_eq]
      have h : (0 : ℤ) ≤ ⌊max x 0 + 1/2⌋ := Int.floor_nonneg.mpr (by positivity)
      exact_mod_cast h

lemma resolve_rotationSpeed_range (o : OptionsInput)
    (hv : tameValb o.rotationSpeed = true) :
    nonNegFiniteb (resolveOptions o).rotationSpeed = true := by
  obtain ⟨q, hq, h0, _⟩ := pno_lower o.rotationSpeed hv 2 0 (by norm_num) (by norm_num)
  have hproj : (resolveOptions o).rotationSpeed =
      jsDiv (parseNumericOption o.rotationSpeed (.num 2) (.num 0) .posInf) (.num 100) := rfl
  rw [hproj, hq, jsDiv_num_num _ _ (by norm_num)]
  simp only [nonNegFiniteb, decide_eq_true_eq]
  positivity

lemma resolve_friction_range (o : OptionsInput) (hv : tameValb o.friction = true) :
    unitIntervalb (resolveOptions o).friction = true := by
  obtain ⟨q, hq, h0, h1⟩ := pno_minmax o.friction hv (4/5) 0 1 (by norm_num) (by norm_num)
  have hproj : (resolveOptions o).friction =
      parseNumericOption o.friction (.num (4/5)) (.num 0) (.num 1) := rfl
  rw [hproj, hq]
  simp only [unitIntervalb, decide_eq_true_eq]
  exact ⟨h0, h1⟩

lemma resolve_mouseConnectDist_range (o : OptionsInput)
    (hcd : tameValb o.connectDistance = true) (hm : tameValb o.connectDistMult = true) :
    nonNegFiniteb (resolveOptions o).mouseConnectDist = true := by
  obtain ⟨mq, hmq, hm0, _⟩ := pno_lower o.connectDistMult hm (2/3) 0 (by norm_num) (by norm_num)
  have hcd1 : 1 ≤ (resolveOptions o).connectDist := (resolve_connectDist_range o hcd).1
  have hcdeq : (resolveOptions o).connectDist =
      toInt32 (parseNumericOption o.connectDistance (.num 150) (.num 1) .posInf) := rfl
  have hproj : (resolveOptions o).mouseConnectDist =
      jsMul (.num ((toInt32 (parseNumericOption o.connectDistance (.num 150) (.num 1)
          .posInf) : ℤ) : ℚ))
        (defaultIfNaN (jsMin (jsMax (parseNumericOption o.connectDistMult (.num (2/3))
          (.num 0) .posInf) (.num 0)) .posInf) (.num (2/3))) := rfl
  rw [hproj, hmq, jsMax_num_num, max_eq_left hm0, jsMin_num_posInf, defaultIfNaN_num,
    jsMul_num_num]
  simp only [nonNegFiniteb, decide_eq_true_eq]
  have hq0 : (0 : ℚ) ≤ ((toInt32 (parseNumericOption o.connectDistance (.num 150) (.num 1)
      .posInf) : ℤ) : ℚ) := by
    rw [← hcdeq]
    exact_mod_cast zero_le_one.trans hcd1
  exact mul_nonneg hq0 hm0

/-- C5 counterexample: with an empty (all-default) input the resolver
produces `particles.max = Infinity` — a numeric field of the resolved
configuration that is not finite, refuting "every numeric field is
finite". -/
theorem resolveOptions_default_max_infinite_cex :
    (resolveOptions emptyInput).maxParticles = JsNum.posInf ∧
    (resolveOptions emptyInput).maxParticles.isFiniteb = false := by
  exact ⟨rfl, rfl⟩

/-- C5 amended: for every sparse input whose provided numeric values
are NaN or finite with magnitude below `2^31`, the resolver never
throws (it is a total function) and every numeric field of the resolved
configuration is non-NaN and within its documented clamp range; all
fields are finite except `particles.max` and `particles.maxWork`,
which resolve to `Infinity` when absent or NaN (their default). -/
theorem resolveOptions_in_clamp_ranges (o : OptionsInput) (ho : tameInputb o = true) :
    inClampRangesb (resolveOptions o) = true := by
  simp only [tameInputb, Bool.and_eq_true] at ho
  obtain ⟨⟨⟨⟨⟨⟨⟨⟨⟨⟨⟨⟨⟨h1, h2⟩, h3⟩, h4⟩, h5⟩, h6⟩, h7⟩, h8⟩, h9⟩, h10⟩, h11⟩, h12⟩, h13⟩,
    h14⟩ := ho
  have e4 : (resolveOptions o).connectDistMult =
      parseNumericOption o.connectDistMult (.num (2/3)) (.num 0) .posInf := rfl
  have e6 : (resolveOptions o).distRat =
      parseNumericOption o.distRat (.num (2/3)) (.num 0) .posInf := rfl
  have e7 : (resolveOptions o).maxParticles =
      jsRound (parseNumericOption o.maxParticles .posInf (.num 0) .posInf) := rfl
  have e8 : (resolveOptions o).maxWork =
      jsRound (parseNumericOption o.maxWork .posInf (.num 0) .posInf) := rfl
  have e9 : (resolveOptions o).relSpeed =
      parseNumericOption o.relSpeed (.num 1) (.num 0) .posInf := rfl
  have e10 : (resolveOptions o).relSize =
      parseNumericOption o.relSize (.num 1) (.num 0) .posInf := rfl
  have e12 : (resolveOptions o).repulsive =
      parseNumericOption o.repulsive (.num 0) (.num 0) .posInf := rfl
  have e13 : (resolveOptions o).pulling =
      parseNumericOption o.pulling (.num 0) (.num 0) .posInf := rfl
  simp only [inClampRangesb, Bool.and_eq_true, decide_eq_true_eq]
  refine ⟨⟨⟨⟨⟨⟨⟨⟨⟨⟨⟨⟨⟨?_, ?_⟩, ?_⟩, ?_⟩, ?_⟩, ?_⟩, ?_⟩, ?_⟩, ?_⟩, ?_⟩, ?_⟩, ?_⟩, ?_⟩, ?_⟩
  · exact resolve_interactionType_range o h1
  · exact resolve_generationType_range o h4
  · exact (resolve_connectDist_range o h8).1
  · rw [e4]; exact pno_lower_nonNegFinite o.connectDistMult h2 (2/3) (by norm_num) (by norm_num)
  · exact resolve_mouseConnectDist_range o h8 h2
  · rw [e6]; exact pno_lower_nonNegFinite o.distRat h3 (2/3) (by norm_num) (by norm_num)
  · rw [e7]; exact pno_round_min0_range o.maxParticles h6
  · rw [e8]; exact pno_round_min0_range o.maxWork h7
  · rw [e9]; exact pno_lower_nonNegFinite o.relSpeed h9 1 (by norm_num) (by norm_num)
  · rw [e10]; exact pno_lower_nonNegFinite o.relSize h10 1 (by norm_num) (by norm_num)
  · exact resolve_rotationSpeed_range o h11
  · rw [e12]; exact pno_lower_nonNegFinite o.repulsive h12 0 (by norm_num) (by norm_num)
  · rw [e13]; exact pno_lower_nonNegFinite o.pulling h13 0 (by norm_num) (by norm_num)
  · exact resolve_friction_range o h14

/-- Witness for C5 amended at the all-default input. -/
theorem resolveOptions_in_clamp_ranges_witness :
    tameInputb emptyInput = true ∧ inClampRangesb (resolveOptions emptyInput) = true :=
  ⟨rfl, resolveOptions_in_clamp_ranges emptyInput rfl⟩

/-! ## C6 — far-half connection line alpha -/

/-- C6 counterexample: with a configured color alpha of 0 (reachable,
e.g. `rgba(0, 0, 0, 0)`), a pair at distance 135 with
`connectDist = 150` — inside the far half `(75, 150)` — gets line alpha
exactly 0, which is not strictly between 0 and the configured alpha,
so the claim fails as stated for zero-alpha configurations. -/
theorem connectionAlpha_zero_alpha_cex :
    connectionAlpha 0 150 135 = 0 ∧ ¬ 0 < connectionAlpha 0 150 135 := by
  norm_num [connectionAlpha]

/-- C6 amended: provided the configured color alpha is positive, for
distances in the far half `connectDist/2 < d < connectDist` the
computed line alpha `alpha * connectDist / d - alpha` is strictly
between 0 and the configured alpha, strictly decreases as the distance
grows toward `connectDist`, and is exactly 0 at `d = connectDist`. -/
theorem connectionAlpha_far_half (alpha cd d1 d2 : ℚ)
    (ha : 0 < alpha) (hcd : 0 < cd) (h1 : cd / 2 < d1) (h12 : d1 < d2) (h2 : d2 ≤ cd) :
    connectionAlpha alpha cd d2 < connectionAlpha alpha cd d1 ∧
    connectionAlpha alpha cd d1 < alpha ∧
    (d2 < cd → 0 < connectionAlpha alpha cd d2) ∧
    connectionAlpha alpha cd cd = 0 := by
  have hd1 : 0 < d1 := lt_trans (by positivity) h1
  have hd2 : 0 < d2 := lt_trans hd1 h12
  unfold connectionAlpha
  refine ⟨?_, ?_, ?_, ?_⟩
  · have h := div_lt_div_of_pos_left (by positivity : (0 : ℚ) < alpha * cd) hd1 h12
    linarith
  · have h : alpha * cd / d1 < 2 * alpha := by
      rw [div_lt_iff hd1]
      nlinarith
    linarith
  · intro h
    have hgt : alpha < alpha * cd / d2 := by
      rw [lt_div_iff hd2]
      nlinarith
    linarith
  · field_simp

/-- Witness for C6 amended at `alpha = 1`, `connectDist = 150`,
distances 100 and 120. -/
theorem connectionAlpha_far_half_witness :
    connectionAlpha 1 150 120 < connectionAlpha 1 150 100 ∧
    connectionAlpha 1 150 100 < 1 ∧
    ((120 : ℚ) < 150 → 0 < connectionAlpha 1 150 120) ∧
    connectionAlpha 1 150 150 = 0 :=
  connectionAlpha_far_half 1 150 100 120 (by norm_num) (by norm_num) (by norm_num)
    (by norm_num) (by norm_num)

end CanvasParticles
